import Mathlib

/-!
Shallow embedding of `src/App.tsx` (a React single-component "Pokémon
generator" app).  The component's workflows are modelled as pure functions
from an explicit application state (the `useState` hooks) and oracles for
the external collaborators (the IndexedDB store and the generative-AI
client) to a new state together with a trace of observable effects
(store writes, client calls, notifications).

Closure semantics: the resell confirmation stores a callback created by
`handleResellConfirmation`.  In React, that callback closes over the
`pokemons` and `tokenBalance` variables of the render in which it was
created; a later call runs with those captured values, not the current
state (the functional updater `setPokemons (prev => ...)` is the only
read of current state inside it).  The embedding makes this explicit by
storing the captured environment in a `ConfirmAction` record.
-/

namespace PokemonApp

/-- The eight rarity tiers, `PokemonRarity` in `types.ts`. -/
inductive PokemonRarity
  | S_PLUS | S | A | B | C | D | E | F
deriving DecidableEq, Repr

/-- Modelled from the spec: `types.ts` is not in the repository snapshot;
the tiers are the 8-value ordered string enumeration "F, E, D, C, B, A, S, S+"
(§3), displayed literally in the UI, so each enum member's runtime value is
its display string. -/
def PokemonRarity.str : PokemonRarity → String
  | .S_PLUS => "S+"
  | .S => "S"
  | .A => "A"
  | .B => "B"
  | .C => "C"
  | .D => "D"
  | .E => "E"
  | .F => "F"

/-- Status enum `PokemonStatus` in `types.ts`: owned | resold (spec §3). -/
inductive PokemonStatus
  | OWNED | RESOLD
deriving DecidableEq, Repr

/-- Resale table `getRarityResellValue` (App.tsx:14-26).  The TypeScript switch compares
the runtime string value of the enum member; the `default` branch returns 1
for any unmapped input. -/
def getRarityResellValue (rarity : String) : Int :=
  match rarity with
  | "S+" => 25
  | "S" => 15
  | "A" => 10
  | "B" => 5
  | "C" => 4
  | "D" => 3
  | "E" => 2
  | "F" => 1
  | _ => 1

/-- Rank table `rarityOrderMap` (App.tsx:28-37): a total record over the enum. -/
def rarityOrderMap : PokemonRarity → Int
  | .S_PLUS => 7
  | .S => 6
  | .A => 5
  | .B => 4
  | .C => 3
  | .D => 2
  | .E => 1
  | .F => 0

/-- Evolution sub-record `PokemonEvolution` in `types.ts`, assembled at App.tsx:171-177.
Timestamps (`generatedAt`, an ISO string in the code) are represented by
their numeric epoch value, which is what the code compares
(`new Date(x).getTime()`). -/
structure PokemonEvolution where
  evolutionName : String
  evolutionDescription : String
  evolutionStats : String
  evolutionImageBase64 : String
  generatedAt : Nat
deriving DecidableEq, Repr

/-- A creature record (`Pokemon` in `types.ts`, fields as used by App.tsx). -/
structure Pokemon where
  id : String
  name : String
  rarity : PokemonRarity
  status : PokemonStatus
  generatedAt : Nat
  imageBase64 : String
  evolution : Option PokemonEvolution
deriving DecidableEq, Repr

/-- Display ordering `sortedPokemons` (App.tsx:272-289): copies the array and sorts it with
the mode's comparator.  `Array.prototype.sort` is a stable sort; each
numeric comparator `c` is modelled by the stable `mergeSort` with
`le a b ↔ c a b ≤ 0`, and `localeCompare` by lexicographic string order. -/
def sortedPokemons (sortOrder : String) (pokemons : List Pokemon) : List Pokemon :=
  match sortOrder with
  | "rarity-desc" =>
      pokemons.mergeSort (fun a b => decide (rarityOrderMap b.rarity ≤ rarityOrderMap a.rarity))
  | "rarity-asc" =>
      pokemons.mergeSort (fun a b => decide (rarityOrderMap a.rarity ≤ rarityOrderMap b.rarity))
  | "name-asc" =>
      pokemons.mergeSort (fun a b => decide (a.name ≤ b.name))
  | "name-desc" =>
      pokemons.mergeSort (fun a b => decide (b.name ≤ a.name))
  | "date-asc" =>
      pokemons.mergeSort (fun a b => decide (a.generatedAt ≤ b.generatedAt))
  | _ =>
      pokemons.mergeSort (fun a b => decide (b.generatedAt ≤ a.generatedAt))

/-- Notification kind of `showMessage` (App.tsx:57). -/
inductive MsgType
  | success | error | warning
deriving DecidableEq, Repr

/-- Notification record `AppMessage` in `types.ts` as used by `showMessage`. -/
structure AppMessage where
  type : MsgType
  text : String
deriving DecidableEq, Repr

/-- Which generative-AI client entry point a workflow invoked. -/
inductive ClientCall
  | generatePokemon
  | generateEvolutionText
  | generateEvolutionImage
deriving DecidableEq, Repr

/-- One observable effect of a workflow, in program order:
a successful IndexedDB write, a client invocation, or a notification. -/
inductive Event
  | storeWriteBalance (n : Int)
  | storeAddPokemon (p : Pokemon)
  | storeUpdatePokemon (p : Pokemon)
  | clientCall (c : ClientCall)
  | notify (m : AppMessage)
deriving DecidableEq, Repr

/-- Store writes among the events (`updateTokenBalance`, `addPokemon`,
`updatePokemon`). -/
def Event.isStoreWrite : Event → Bool
  | .storeWriteBalance _ => true
  | .storeAddPokemon _ => true
  | .storeUpdatePokemon _ => true
  | _ => false

/-- Client calls among the events. -/
def Event.isClientCall : Event → Bool
  | .clientCall _ => true
  | _ => false

/-- The IndexedDB contents: the creature collection and the single token
balance (spec §6 store contract). -/
structure Store where
  pokemons : List Pokemon
  balance : Int
deriving DecidableEq, Repr

/-- The environment captured by the confirm callback built in
`handleResellConfirmation` (App.tsx:223-252): the `pokemonId` argument and
the `pokemons` / `tokenBalance` state variables of the render that created
the closure. -/
structure ConfirmAction where
  pokemonId : String
  capturedPokemons : List Pokemon
  capturedBalance : Int
deriving DecidableEq, Repr

/-- The `useState` hooks of the `App` component (App.tsx:40-54), plus the
store contents (so persistence effects are part of the state).
`modalContent` (a React node) is not modelled. -/
structure AppState where
  pokemons : List Pokemon
  tokenBalance : Int
  isGeneratingPokemon : Bool
  isGeneratingEvolutionForPokemonId : Option String
  message : Option AppMessage
  sortOrder : String
  isModalOpen : Bool
  modalTitle : String
  modalOnConfirm : Option ConfirmAction
  isModalConfirmLoading : Bool
  pokemonToResellId : Option String
  store : Store
deriving DecidableEq, Repr

/-- Cost constant `GENERATION_COST` (App.tsx:12). -/
def GENERATION_COST : Int := 10

/-- Generation workflow `handleGeneratePokemon` (App.tsx:87-117).  The three awaited fallible
operations are oracles: `debit` (the first `updateTokenBalance`), `gen`
(`pokemonApiService.generatePokemon`) and `persist` (`addPokemon`).  The
rollback `updateTokenBalance` in the catch block is assumed to succeed (a
failure there is an unhandled rejection, outside every claim). -/
def handleGeneratePokemon (s : AppState) (debit : Except String Unit)
    (gen : Except String Pokemon) (persist : Except String Unit) :
    AppState × List Event :=
  if s.tokenBalance < GENERATION_COST then
    let m : AppMessage :=
      ⟨.warning, "You need " ++ toString GENERATION_COST ++
        " tokens to generate a Pokémon. Current balance: " ++
        toString s.tokenBalance ++ "."⟩
    ({ s with message := some m }, [.notify m])
  else
    let originalTokenBalance := s.tokenBalance
    let newBalanceAfterDeduction := originalTokenBalance - GENERATION_COST
    -- setIsGeneratingPokemon(true); setTokenBalance(newBalanceAfterDeduction)
    let s1 := { s with isGeneratingPokemon := true,
                       tokenBalance := newBalanceAfterDeduction }
    let fail := fun (s' : AppState) (evs : List Event) (e : String) =>
      let m : AppMessage :=
        ⟨.error, "Failed to generate Pokémon: " ++ e ++ ". Tokens refunded."⟩
      ({ s' with tokenBalance := originalTokenBalance,
                 store := { s'.store with balance := originalTokenBalance },
                 message := some m,
                 isGeneratingPokemon := false },
       evs ++ [.storeWriteBalance originalTokenBalance, .notify m])
    match debit with
    | .error e => fail s1 [] e
    | .ok _ =>
      let s2 := { s1 with store := { s1.store with balance := newBalanceAfterDeduction } }
      let evs := [Event.storeWriteBalance newBalanceAfterDeduction,
                  Event.clientCall .generatePokemon]
      match gen with
      | .error e => fail s2 evs e
      | .ok newPokemon =>
        match persist with
        | .error e => fail s2 evs e
        | .ok _ =>
          let m : AppMessage :=
            ⟨.success, "Awesome! You generated a new Pokémon: " ++
              newPokemon.name ++ " (" ++ newPokemon.rarity.str ++ ")!"⟩
          ({ s2 with store := { s2.store with pokemons := newPokemon :: s2.store.pokemons },
                     pokemons := newPokemon :: s2.pokemons,
                     message := some m,
                     isGeneratingPokemon := false },
           evs ++ [.storeAddPokemon newPokemon, .notify m])

/-- The three required string fields of the evolution text response
(App.tsx:147). -/
structure EvolutionTextData where
  evolutionName : String
  evolutionDescription : String
  evolutionStats : String
deriving DecidableEq, Repr

/-- Replace-by-identity over a list of records, the shape of both
`updatePokemon` in the store and the `setPokemons` map
(`p.id === updated.id ? updated : p`). -/
def replaceById (updated : Pokemon) (l : List Pokemon) : List Pokemon :=
  l.map (fun p => if p.id = updated.id then updated else p)

/-- Evolution workflow `handleGenerateEvolution` (App.tsx:119-193).  Oracles: `textRes` is the
raw text of `ai.models.generateContent` (or its thrown error), `jsonParse`
is `JSON.parse` applied to the trimmed raw text, `imageRes` is the base64
image of `ai.models.generateImages` (or its thrown error), `now` the
timestamp of `new Date().toISOString()`, and `persist` the `updatePokemon`
outcome.  Every failure path funnels through the single catch block
(App.tsx:187-190); the finally block clears the per-creature busy id. -/
def handleGenerateEvolution (s : AppState) (pokemon : Pokemon)
    (textRes : Except String String)
    (jsonParse : String → Except String EvolutionTextData)
    (imageRes : Except String String) (now : Nat)
    (persist : Except String Unit) : AppState × List Event :=
  -- setIsGeneratingEvolutionForPokemonId(pokemon.id), cleared in finally
  let fail := fun (s' : AppState) (evs : List Event) (e : String) =>
    let m : AppMessage :=
      ⟨.error, "Failed to generate evolution for " ++ pokemon.name ++ ": " ++
        e ++ ". Please check the console for more details."⟩
    ({ s' with message := some m, isGeneratingEvolutionForPokemonId := none },
     evs ++ [.notify m])
  let evs0 := [Event.clientCall .generateEvolutionText]
  match textRes with
  | .error e => fail s evs0 e
  | .ok raw =>
    match jsonParse raw.trim with
    | .error parseError =>
        fail s evs0 ("Failed to parse evolution text response from AI: " ++
          parseError ++ ". Raw response: " ++ raw)
    | .ok evolutionTextData =>
      let evs1 := evs0 ++ [Event.clientCall .generateEvolutionImage]
      match imageRes with
      | .error e => fail s evs1 e
      | .ok evolutionImageBase64 =>
        let newEvolution : PokemonEvolution :=
          ⟨evolutionTextData.evolutionName,
           evolutionTextData.evolutionDescription,
           evolutionTextData.evolutionStats,
           evolutionImageBase64, now⟩
        let updatedPokemon := { pokemon with evolution := some newEvolution }
        match persist with
        | .error e => fail s evs1 e
        | .ok _ =>
          let m : AppMessage :=
            ⟨.success, "Evolution created for " ++ pokemon.name ++
              "! Meet " ++ evolutionTextData.evolutionName ++ "!"⟩
          ({ s with
              store := { s.store with
                pokemons := replaceById updatedPokemon s.store.pokemons },
              pokemons := replaceById updatedPokemon s.pokemons,
              message := some m,
              isGeneratingEvolutionForPokemonId := none },
           evs1 ++ [.storeUpdatePokemon updatedPokemon, .notify m])

/-- Modal reset `closeModal` (App.tsx:196-203). -/
def closeModal (s : AppState) : AppState :=
  { s with isModalOpen := false, pokemonToResellId := none, modalTitle := "",
           modalOnConfirm := none, isModalConfirmLoading := false }

/-- Resell opener `handleResellConfirmation` (App.tsx:205-255): looks the creature up in
the current collection, and on success stores the confirm callback together
with its captured environment (`pokemonId`, current `pokemons`, current
`tokenBalance`) and opens the modal.  `modalContent` (the displayed resale
value) is presentation only and not modelled. -/
def handleResellConfirmation (s : AppState) (pokemonId : String)
    (_pokemonName : String) : AppState × List Event :=
  match s.pokemons.find? (fun p => p.id = pokemonId) with
  | none =>
      let m : AppMessage := ⟨.error, "Could not find the Pokémon to resell."⟩
      ({ s with message := some m }, [.notify m])
  | some _ =>
      ({ s with pokemonToResellId := some pokemonId,
                modalTitle := "Resell Pokémon",
                modalOnConfirm := some ⟨pokemonId, s.pokemons, s.tokenBalance⟩,
                isModalOpen := true }, [])

/-- Confirm callback `onConfirmAction` (App.tsx:223-252), run when the modal is confirmed in
a possibly later state `s`.  The lookup reads the closure-captured
collection and the credit base is the closure-captured balance; only the
`setPokemons` functional updater sees the current collection.  Oracles:
`update` (`updatePokemon`) and `balanceW` (`updateTokenBalance`).  The
finally block clears the busy flag and calls `closeModal`. -/
def onConfirmAction (cap : ConfirmAction) (s : AppState)
    (update : Except String Unit) (balanceW : Except String Unit) :
    AppState × List Event :=
  let fail := fun (s' : AppState) (evs : List Event) (e : String) =>
    let m : AppMessage := ⟨.error, "Failed to resell Pokémon: " ++ e⟩
    (closeModal { s' with message := some m }, evs ++ [.notify m])
  match cap.capturedPokemons.find? (fun p => p.id = cap.pokemonId) with
  | none => (closeModal s, [])
  | some pokemonToResell =>
    let updatedPokemon := { pokemonToResell with status := PokemonStatus.RESOLD }
    match update with
    | .error e => fail s [] e
    | .ok _ =>
      let s1 := { s with store := { s.store with
        pokemons := replaceById updatedPokemon s.store.pokemons } }
      let evs1 := [Event.storeUpdatePokemon updatedPokemon]
      let currentResellValue := getRarityResellValue pokemonToResell.rarity.str
      let newBalance := cap.capturedBalance + currentResellValue
      match balanceW with
      | .error e => fail s1 evs1 e
      | .ok _ =>
        let m : AppMessage :=
          ⟨.success, pokemonToResell.name ++
            " resold successfully! You gained " ++
            toString currentResellValue ++ " tokens."⟩
        (closeModal { s1 with
            store := { s1.store with balance := newBalance },
            pokemons := replaceById updatedPokemon s.pokemons,
            tokenBalance := newBalance,
            message := some m },
         evs1 ++ [.storeWriteBalance newBalance, .notify m])

/-! ### Concrete sample data for witnesses and counterexamples -/

/-- A sample owned rarity-A creature. -/
def samplePokemon : Pokemon :=
  { id := "p1", name := "Alpha", rarity := .A, status := .OWNED,
    generatedAt := 1000, imageBase64 := "img", evolution := none }

/-- A second creature, as returned by the generation client. -/
def generatedPokemon : Pokemon :=
  { id := "p2", name := "Beta", rarity := .C, status := .OWNED,
    generatedAt := 2000, imageBase64 := "img2", evolution := none }

/-- An idle app state holding the given collection and balance, with the
store in sync (the situation right after `fetchAppData`). -/
def mkState (ps : List Pokemon) (bal : Int) : AppState :=
  { pokemons := ps, tokenBalance := bal, isGeneratingPokemon := false,
    isGeneratingEvolutionForPokemonId := none, message := none,
    sortOrder := "date-desc", isModalOpen := false, modalTitle := "",
    modalOnConfirm := none, isModalConfirmLoading := false,
    pokemonToResellId := none, store := { pokemons := ps, balance := bal } }

/-- State after opening the resell confirmation for `samplePokemon` at
balance 20 and then completing a generation workflow while the confirmation
is still pending: the balance is now 10 and a new creature sits at the
front of the collection, but the stored confirm callback still holds the
captured collection `[samplePokemon]` and captured balance 20. -/
def resellPendingState : AppState :=
  (handleGeneratePokemon
    ((handleResellConfirmation (mkState [samplePokemon] 20) "p1" "Alpha").1)
    (.ok ()) (.ok generatedPokemon) (.ok ())).1

/-- The confirm environment captured when opening the resell confirmation
for `samplePokemon` at balance 20 (the callback stored in
`resellPendingState`). -/
def staleCap : ConfirmAction :=
  { pokemonId := "p1", capturedPokemons := [samplePokemon],
    capturedBalance := 20 }

/-- State with the resell confirmation for `samplePokemon` open at
balance 50 and no interleaved workflow. -/
def confirmOpenState : AppState :=
  (handleResellConfirmation (mkState [samplePokemon] 50) "p1" "Alpha").1

/-- The confirm environment captured by `confirmOpenState`. -/
def confirmCap : ConfirmAction :=
  { pokemonId := "p1", capturedPokemons := [samplePokemon],
    capturedBalance := 50 }

/-- A JSON-parse oracle that always succeeds with fixed fields. -/
def sampleParse : String → Except String EvolutionTextData :=
  fun _ => .ok { evolutionName := "AlphaX", evolutionDescription := "desc",
                 evolutionStats := "stats" }

/-- A JSON-parse oracle that always fails, as `JSON.parse` does on
non-JSON text. -/
def failingParse : String → Except String EvolutionTextData :=
  fun _ => .error "SyntaxError: Unexpected token"

/-! ### Helper lemmas -/

/-- Stability helper: `mergeSort` with the decidable comparator of a
transitive total relation yields a list sorted by that relation. -/
theorem sorted_mergeSort_of_rel {α : Type} (P : α → α → Prop) [DecidableRel P]
    (htrans : ∀ a b c, P a b → P b c → P a c)
    (htotal : ∀ a b, P a b ∨ P b a) (l : List α) :
    List.Sorted P (l.mergeSort (fun a b => decide (P a b))) := by
  have h := @List.sorted_mergeSort _ (fun a b => decide (P a b)) ?_ ?_ l
  · exact h.imp (by simp)
  · intro a b c
    simpa using htrans a b c
  · intro a b
    simpa using htotal a b

/-! ### Claims -/

/-- C5: for every rarity tier, `getRarityResellValue` returns the fixed
table {S+:25, S:15, A:10, B:5, C:4, D:3, E:2, F:1}, and defaults to 1 for
any unmapped input; `rarityOrderMap` is the fixed strictly increasing map
from F=0 up to S+=7. -/
theorem resale_and_rank_tables :
    (getRarityResellValue "S+" = 25 ∧ getRarityResellValue "S" = 15 ∧
     getRarityResellValue "A" = 10 ∧ getRarityResellValue "B" = 5 ∧
     getRarityResellValue "C" = 4 ∧ getRarityResellValue "D" = 3 ∧
     getRarityResellValue "E" = 2 ∧ getRarityResellValue "F" = 1) ∧
    (∀ s : String, (∀ r : PokemonRarity, s ≠ r.str) →
      getRarityResellValue s = 1) ∧
    (rarityOrderMap .F = 0 ∧ rarityOrderMap .E = 1 ∧ rarityOrderMap .D = 2 ∧
     rarityOrderMap .C = 3 ∧ rarityOrderMap .B = 4 ∧ rarityOrderMap .A = 5 ∧
     rarityOrderMap .S = 6 ∧ rarityOrderMap .S_PLUS = 7) ∧
    List.Chain' (fun a b => rarityOrderMap a < rarityOrderMap b)
      [.F, .E, .D, .C, .B, .A, .S, .S_PLUS] := by
  refine ⟨by decide, ?_, by decide, by simp [List.chain'_cons, rarityOrderMap]⟩
  intro s h
  have h1 := h .S_PLUS
  have h2 := h .S
  have h3 := h .A
  have h4 := h .B
  have h5 := h .C
  have h6 := h .D
  have h7 := h .E
  have h8 := h .F
  simp only [PokemonRarity.str] at h1 h2 h3 h4 h5 h6 h7 h8
  unfold getRarityResellValue
  split <;> simp_all

/-- Witness for C5 at the concrete unmapped input "Z". -/
theorem resale_and_rank_tables_witness : getRarityResellValue "Z" = 1 :=
  resale_and_rank_tables.2.1 "Z" (by intro r; cases r <;> decide)

/-- C4: with balance strictly below the cost of 10, the generation workflow
leaves the collection, balance and store untouched, performs zero store
writes and zero client calls, and only shows a warning notification. -/
theorem generation_insufficient_balance (s : AppState)
    (debit : Except String Unit) (gen : Except String Pokemon)
    (persist : Except String Unit) (h : s.tokenBalance < GENERATION_COST) :
    (handleGeneratePokemon s debit gen persist).1.pokemons = s.pokemons ∧
    (handleGeneratePokemon s debit gen persist).1.tokenBalance = s.tokenBalance ∧
    (handleGeneratePokemon s debit gen persist).1.store = s.store ∧
    ((handleGeneratePokemon s debit gen persist).2.filter Event.isStoreWrite) = [] ∧
    ((handleGeneratePokemon s debit gen persist).2.filter Event.isClientCall) = [] ∧
    (handleGeneratePokemon s debit gen persist).1.message =
      some ⟨.warning, "You need " ++ toString GENERATION_COST ++
        " tokens to generate a Pokémon. Current balance: " ++
        toString s.tokenBalance ++ "."⟩ ∧
    (handleGeneratePokemon s debit gen persist).2 =
      [.notify ⟨.warning, "You need " ++ toString GENERATION_COST ++
        " tokens to generate a Pokémon. Current balance: " ++
        toString s.tokenBalance ++ "."⟩] := by
  unfold handleGeneratePokemon
  rw [if_pos h]
  exact ⟨rfl, rfl, rfl, rfl, rfl, rfl, rfl⟩

/-- Witness for C4: balance 3 < 10, no store writes. -/
theorem generation_insufficient_balance_witness :
    (mkState [] 3).tokenBalance < GENERATION_COST ∧
    ((handleGeneratePokemon (mkState [] 3) (.ok ()) (.ok samplePokemon)
      (.ok ())).2.filter Event.isStoreWrite) = [] :=
  ⟨by decide,
   (generation_insufficient_balance (mkState [] 3) (.ok ())
     (.ok samplePokemon) (.ok ()) (by decide)).2.2.2.1⟩

/-- C3: a successful generation decreases the balance by exactly 10, puts
the new record at the front of the in-memory collection, and the full
effect trace is: balance write (of the decremented value), then the client
call, then the record write, then the success notification — so exactly two
store writes, balance first, and the debit is persisted before the client
is invoked. -/
theorem generation_success (s : AppState) (p : Pokemon)
    (h : ¬ s.tokenBalance < GENERATION_COST) :
    (handleGeneratePokemon s (.ok ()) (.ok p) (.ok ())).1.tokenBalance =
      s.tokenBalance - 10 ∧
    (handleGeneratePokemon s (.ok ()) (.ok p) (.ok ())).1.pokemons =
      p :: s.pokemons ∧
    (handleGeneratePokemon s (.ok ()) (.ok p) (.ok ())).1.store.balance =
      s.tokenBalance - 10 ∧
    (handleGeneratePokemon s (.ok ()) (.ok p) (.ok ())).1.store.pokemons =
      p :: s.store.pokemons ∧
    ((handleGeneratePokemon s (.ok ()) (.ok p) (.ok ())).2.filter
      Event.isStoreWrite) =
      [.storeWriteBalance (s.tokenBalance - 10), .storeAddPokemon p] ∧
    (handleGeneratePokemon s (.ok ()) (.ok p) (.ok ())).2 =
      [.storeWriteBalance (s.tokenBalance - 10),
       .clientCall .generatePokemon,
       .storeAddPokemon p,
       .notify ⟨.success, "Awesome! You generated a new Pokémon: " ++
         p.name ++ " (" ++ p.rarity.str ++ ")!"⟩] := by
  unfold handleGeneratePokemon
  rw [if_neg h]
  exact ⟨rfl, rfl, rfl, rfl, rfl, rfl⟩

/-- Witness for C3 at balance 20: final balance 10 and the new record in
front. -/
theorem generation_success_witness :
    ¬ (mkState [] 20).tokenBalance < GENERATION_COST ∧
    (handleGeneratePokemon (mkState [] 20) (.ok ()) (.ok samplePokemon)
      (.ok ())).1.tokenBalance = (mkState [] 20).tokenBalance - 10 ∧
    (handleGeneratePokemon (mkState [] 20) (.ok ()) (.ok samplePokemon)
      (.ok ())).1.pokemons = [samplePokemon] :=
  ⟨by decide,
   (generation_success (mkState [] 20) samplePokemon (by decide)).1,
   (generation_success (mkState [] 20) samplePokemon (by decide)).2.1⟩

/-- C2: if the generation client call throws, or record persistence throws,
the balance is restored to its pre-debit value in memory and in the store
(the trace shows the debit write followed by the rollback write of the
original balance), the collection is unchanged, and the error notification
text ends with "Tokens refunded.". -/
theorem generation_rollback (s : AppState) (p : Pokemon) (e : String)
    (persist : Except String Unit) (h : ¬ s.tokenBalance < GENERATION_COST) :
    ((handleGeneratePokemon s (.ok ()) (.error e) persist).1.tokenBalance =
        s.tokenBalance ∧
     (handleGeneratePokemon s (.ok ()) (.error e) persist).1.store.balance =
        s.tokenBalance ∧
     (handleGeneratePokemon s (.ok ()) (.error e) persist).1.pokemons =
        s.pokemons ∧
     (handleGeneratePokemon s (.ok ()) (.error e) persist).1.store.pokemons =
        s.store.pokemons ∧
     (∃ m pre, (handleGeneratePokemon s (.ok ()) (.error e) persist).1.message =
          some m ∧ m.type = .error ∧ m.text = pre ++ "Tokens refunded." ∧
        (handleGeneratePokemon s (.ok ()) (.error e) persist).2 =
          [.storeWriteBalance (s.tokenBalance - 10),
           .clientCall .generatePokemon,
           .storeWriteBalance s.tokenBalance, .notify m])) ∧
    ((handleGeneratePokemon s (.ok ()) (.ok p) (.error e)).1.tokenBalance =
        s.tokenBalance ∧
     (handleGeneratePokemon s (.ok ()) (.ok p) (.error e)).1.store.balance =
        s.tokenBalance ∧
     (handleGeneratePokemon s (.ok ()) (.ok p) (.error e)).1.pokemons =
        s.pokemons ∧
     (handleGeneratePokemon s (.ok ()) (.ok p) (.error e)).1.store.pokemons =
        s.store.pokemons ∧
     (∃ m pre, (handleGeneratePokemon s (.ok ()) (.ok p) (.error e)).1.message =
          some m ∧ m.type = .error ∧ m.text = pre ++ "Tokens refunded." ∧
        (handleGeneratePokemon s (.ok ()) (.ok p) (.error e)).2 =
          [.storeWriteBalance (s.tokenBalance - 10),
           .clientCall .generatePokemon,
           .storeWriteBalance s.tokenBalance, .notify m])) := by
  unfold handleGeneratePokemon
  rw [if_neg h]
  constructor
  · refine ⟨rfl, rfl, rfl, rfl,
      ⟨_, "Failed to generate Pokémon: " ++ e ++ ". ", rfl, rfl, ?_, rfl⟩⟩
    simp [String.append_assoc]
  · refine ⟨rfl, rfl, rfl, rfl,
      ⟨_, "Failed to generate Pokémon: " ++ e ++ ". ", rfl, rfl, ?_, rfl⟩⟩
    simp [String.append_assoc]

/-- Witness for C2: a failed client call at balance 20 leaves balance 20 in
memory and in the store, with the collection empty as before. -/
theorem generation_rollback_witness :
    ¬ (mkState [] 20).tokenBalance < GENERATION_COST ∧
    (handleGeneratePokemon (mkState [] 20) (.ok ()) (.error "network down")
      (.ok ())).1.tokenBalance = (mkState [] 20).tokenBalance ∧
    (handleGeneratePokemon (mkState [] 20) (.ok ()) (.error "network down")
      (.ok ())).1.store.balance = (mkState [] 20).tokenBalance :=
  ⟨by decide,
   (generation_rollback (mkState [] 20) samplePokemon "network down" (.ok ())
     (by decide)).1.1,
   (generation_rollback (mkState [] 20) samplePokemon "network down" (.ok ())
     (by decide)).1.2.1⟩

/-- C8: confirming a resell of an owned rarity-A creature (confirmed in the
state in which the confirmation was opened) raises the balance by exactly
10 and marks the creature resold; for every outcome the busy flag is
cleared and the dialog closed; the in-memory collection and balance change
only when both persistence writes (record first, then balance) succeed. -/
theorem resell_confirm_owned_a (s : AppState) (cap : ConfirmAction)
    (p : Pokemon) (hcapP : cap.capturedPokemons = s.pokemons)
    (hcapB : cap.capturedBalance = s.tokenBalance)
    (hfind : s.pokemons.find? (fun q => q.id = cap.pokemonId) = some p)
    (hA : p.rarity = .A) (hOwned : p.status = .OWNED) :
    (onConfirmAction cap s (.ok ()) (.ok ())).1.tokenBalance =
      s.tokenBalance + 10 ∧
    (onConfirmAction cap s (.ok ()) (.ok ())).1.store.balance =
      s.tokenBalance + 10 ∧
    (onConfirmAction cap s (.ok ()) (.ok ())).1.pokemons =
      replaceById { p with status := .RESOLD } s.pokemons ∧
    (∀ q ∈ (onConfirmAction cap s (.ok ()) (.ok ())).1.pokemons,
      q.id = p.id → q.status = .RESOLD) ∧
    ((onConfirmAction cap s (.ok ()) (.ok ())).2.filter Event.isStoreWrite) =
      [.storeUpdatePokemon { p with status := .RESOLD },
       .storeWriteBalance (s.tokenBalance + 10)] ∧
    (∀ u b : Except String Unit,
      (onConfirmAction cap s u b).1.isModalConfirmLoading = false ∧
      (onConfirmAction cap s u b).1.isModalOpen = false) ∧
    (∀ err : String, ∀ b : Except String Unit,
      (onConfirmAction cap s (.error err) b).1.pokemons = s.pokemons ∧
      (onConfirmAction cap s (.error err) b).1.tokenBalance = s.tokenBalance) ∧
    (∀ err : String,
      (onConfirmAction cap s (.ok ()) (.error err)).1.pokemons = s.pokemons ∧
      (onConfirmAction cap s (.ok ()) (.error err)).1.tokenBalance =
        s.tokenBalance) := by
  have hfind' : cap.capturedPokemons.find? (fun q => q.id = cap.pokemonId) =
      some p := by
    rw [hcapP]
    exact hfind
  have hbal : cap.capturedBalance + getRarityResellValue p.rarity.str =
      s.tokenBalance + 10 := by
    rw [hcapB, hA]
    rfl
  unfold onConfirmAction
  rw [hfind']
  refine ⟨?_, ?_, rfl, ?_, ?_, ?_, ?_, ?_⟩
  · exact hbal
  · exact hbal
  · intro q hq hid
    have hq' : q ∈ replaceById { p with status := PokemonStatus.RESOLD }
        s.pokemons := hq
    simp only [replaceById, List.mem_map] at hq'
    obtain ⟨q0, _, rfl⟩ := hq'
    by_cases h0 : q0.id = (Pokemon.id { p with status := PokemonStatus.RESOLD })
    · rw [if_pos h0]
    · rw [if_neg h0] at hid ⊢
      exact absurd hid h0
  · show [Event.storeUpdatePokemon { p with status := .RESOLD },
      Event.storeWriteBalance
        (cap.capturedBalance + getRarityResellValue p.rarity.str)] = _
    rw [hbal]
  · intro u b
    cases u with
    | error err => exact ⟨rfl, rfl⟩
    | ok u0 =>
      cases b with
      | error err => exact ⟨rfl, rfl⟩
      | ok b0 => exact ⟨rfl, rfl⟩
  · intro err b
    exact ⟨rfl, rfl⟩
  · intro err
    exact ⟨rfl, rfl⟩

/-- Witness for C8: confirming the resell of the rarity-A `samplePokemon`
at balance 50 yields balance 60 and a closed, idle dialog. -/
theorem resell_confirm_owned_a_witness :
    (onConfirmAction confirmCap confirmOpenState (.ok ()) (.ok ())).1.tokenBalance =
      confirmOpenState.tokenBalance + 10 :=
  (resell_confirm_owned_a confirmOpenState confirmCap samplePokemon
    (by decide) (by decide) (by decide) rfl rfl).1

/-- C10: if the confirm action's captured collection has no record with the
target identity, the action writes nothing, changes no in-memory state,
shows no notification, and still clears the busy flag and closes the
dialog. -/
theorem resell_confirm_not_found (cap : ConfirmAction) (s : AppState)
    (u b : Except String Unit)
    (hnone : cap.capturedPokemons.find? (fun q => q.id = cap.pokemonId) =
      none) :
    (onConfirmAction cap s u b).1.pokemons = s.pokemons ∧
    (onConfirmAction cap s u b).1.tokenBalance = s.tokenBalance ∧
    (onConfirmAction cap s u b).1.store = s.store ∧
    (onConfirmAction cap s u b).1.message = s.message ∧
    (onConfirmAction cap s u b).2 = [] ∧
    (onConfirmAction cap s u b).1.isModalConfirmLoading = false ∧
    (onConfirmAction cap s u b).1.isModalOpen = false ∧
    (onConfirmAction cap s u b).1.pokemonToResellId = none := by
  unfold onConfirmAction
  rw [hnone]
  exact ⟨rfl, rfl, rfl, rfl, rfl, rfl, rfl, rfl⟩

/-- Witness for C10 with an identity absent from the captured collection. -/
theorem resell_confirm_not_found_witness :
    (onConfirmAction ⟨"zzz", [], 0⟩ (mkState [samplePokemon] 7) (.ok ())
      (.ok ())).2 = [] ∧
    (onConfirmAction ⟨"zzz", [], 0⟩ (mkState [samplePokemon] 7) (.ok ())
      (.ok ())).1.message = (mkState [samplePokemon] 7).message :=
  ⟨(resell_confirm_not_found ⟨"zzz", [], 0⟩ (mkState [samplePokemon] 7)
      (.ok ()) (.ok ()) rfl).2.2.2.2.1,
   (resell_confirm_not_found ⟨"zzz", [], 0⟩ (mkState [samplePokemon] 7)
      (.ok ()) (.ok ()) rfl).2.2.2.1⟩

/-- C1 (amended): on confirmation the record lookup and the credit base are
the values captured when the confirmation was opened — the persisted record
is the captured record with status resold, and the persisted balance equals
the captured balance plus the resale value of the captured record's
rarity. -/
theorem resell_confirm_uses_captured_state (cap : ConfirmAction)
    (s : AppState) (p : Pokemon)
    (hfind : cap.capturedPokemons.find? (fun q => q.id = cap.pokemonId) =
      some p) :
    (onConfirmAction cap s (.ok ()) (.ok ())).1.store.pokemons =
      replaceById { p with status := .RESOLD } s.store.pokemons ∧
    (onConfirmAction cap s (.ok ()) (.ok ())).1.store.balance =
      cap.capturedBalance + getRarityResellValue p.rarity.str ∧
    ((onConfirmAction cap s (.ok ()) (.ok ())).2.filter Event.isStoreWrite) =
      [.storeUpdatePokemon { p with status := .RESOLD },
       .storeWriteBalance
         (cap.capturedBalance + getRarityResellValue p.rarity.str)] := by
  unfold onConfirmAction
  rw [hfind]
  exact ⟨rfl, rfl, rfl⟩

/-- Witness for the amended C1: confirming against `resellPendingState`
persists the captured balance 20 plus 10. -/
theorem resell_confirm_uses_captured_state_witness :
    (onConfirmAction staleCap resellPendingState (.ok ()) (.ok ())).1.store.balance =
      staleCap.capturedBalance + getRarityResellValue samplePokemon.rarity.str :=
  (resell_confirm_uses_captured_state staleCap resellPendingState
    samplePokemon (by decide)).2.1

/-- C1 counterexample: open the confirmation for the rarity-A creature at
balance 20, let a generation workflow finish while it is pending (balance
10 at confirm time, resale value 10), then confirm: the claim requires the
persisted balance 10 + 10 = 20, but the code persists the captured balance
plus the credit, 30. -/
theorem resell_confirm_fresh_lookup_counterexample :
    resellPendingState.modalOnConfirm = some staleCap ∧
    resellPendingState.tokenBalance = 10 ∧
    resellPendingState.pokemons.find?
      (fun q => q.id = staleCap.pokemonId) = some samplePokemon ∧
    getRarityResellValue samplePokemon.rarity.str = 10 ∧
    (onConfirmAction staleCap resellPendingState (.ok ())
      (.ok ())).1.store.balance = 30 ∧
    (onConfirmAction staleCap resellPendingState (.ok ())
      (.ok ())).1.store.balance ≠
      resellPendingState.tokenBalance +
        getRarityResellValue samplePokemon.rarity.str := by
  decide

/-- C6: if parsing the evolution text response fails, the workflow aborts
with an error notification whose text contains the raw unparsed response
text, the creature record and the whole store are unchanged, and zero store
writes occur. -/
theorem evolution_parse_failure (s : AppState) (pokemon : Pokemon)
    (raw perr : String)
    (jsonParse : String → Except String EvolutionTextData)
    (imageRes : Except String String) (now : Nat)
    (persist : Except String Unit)
    (hparse : jsonParse raw.trim = .error perr) :
    (handleGenerateEvolution s pokemon (.ok raw) jsonParse imageRes now
      persist).1.pokemons = s.pokemons ∧
    (handleGenerateEvolution s pokemon (.ok raw) jsonParse imageRes now
      persist).1.store = s.store ∧
    (handleGenerateEvolution s pokemon (.ok raw) jsonParse imageRes now
      persist).1.tokenBalance = s.tokenBalance ∧
    ((handleGenerateEvolution s pokemon (.ok raw) jsonParse imageRes now
      persist).2.filter Event.isStoreWrite) = [] ∧
    ∃ m pre post,
      (handleGenerateEvolution s pokemon (.ok raw) jsonParse imageRes now
        persist).1.message = some m ∧ m.type = .error ∧
      m.text = pre ++ raw ++ post ∧
      (handleGenerateEvolution s pokemon (.ok raw) jsonParse imageRes now
        persist).2 = [.clientCall .generateEvolutionText, .notify m] := by
  simp only [handleGenerateEvolution]
  rw [hparse]
  refine ⟨rfl, rfl, rfl, rfl,
    ⟨_, "Failed to generate evolution for " ++ pokemon.name ++ ": " ++
        "Failed to parse evolution text response from AI: " ++ perr ++
        ". Raw response: ",
      ". Please check the console for more details.", rfl, rfl, ?_, rfl⟩⟩
  simp only [String.append_assoc]

/-- Witness for C6: a failing parse on raw text "garbage" leaves the state
untouched and performs no store write. -/
theorem evolution_parse_failure_witness :
    ((handleGenerateEvolution (mkState [samplePokemon] 20) samplePokemon
      (.ok "garbage") failingParse (.ok "imgX") 5
      (.ok ())).2.filter Event.isStoreWrite) = [] ∧
    (handleGenerateEvolution (mkState [samplePokemon] 20) samplePokemon
      (.ok "garbage") failingParse (.ok "imgX") 5 (.ok ())).1.pokemons =
      (mkState [samplePokemon] 20).pokemons :=
  ⟨(evolution_parse_failure (mkState [samplePokemon] 20) samplePokemon
      "garbage" "SyntaxError: Unexpected token" failingParse (.ok "imgX") 5
      (.ok ()) rfl).2.2.2.1,
   (evolution_parse_failure (mkState [samplePokemon] 20) samplePokemon
      "garbage" "SyntaxError: Unexpected token" failingParse (.ok "imgX") 5
      (.ok ()) rfl).1⟩

/-- C7: a successful evolution attaches a sub-record of exactly the three
text fields, the generated image and the timestamp (replacing any prior
evolution), replaces the record by identity in the in-memory collection and
the store, leaves both balances unchanged, and the trace holds exactly one
store write: the record update. -/
theorem evolution_success (s : AppState) (pokemon : Pokemon) (raw : String)
    (jsonParse : String → Except String EvolutionTextData)
    (d : EvolutionTextData) (img : String) (now : Nat)
    (hparse : jsonParse raw.trim = .ok d) :
    (handleGenerateEvolution s pokemon (.ok raw) jsonParse (.ok img) now
      (.ok ())).1.pokemons =
      replaceById { pokemon with evolution := some ⟨d.evolutionName,
        d.evolutionDescription, d.evolutionStats, img, now⟩ } s.pokemons ∧
    (handleGenerateEvolution s pokemon (.ok raw) jsonParse (.ok img) now
      (.ok ())).1.store.pokemons =
      replaceById { pokemon with evolution := some ⟨d.evolutionName,
        d.evolutionDescription, d.evolutionStats, img, now⟩ }
        s.store.pokemons ∧
    (handleGenerateEvolution s pokemon (.ok raw) jsonParse (.ok img) now
      (.ok ())).1.tokenBalance = s.tokenBalance ∧
    (handleGenerateEvolution s pokemon (.ok raw) jsonParse (.ok img) now
      (.ok ())).1.store.balance = s.store.balance ∧
    ((handleGenerateEvolution s pokemon (.ok raw) jsonParse (.ok img) now
      (.ok ())).2.filter Event.isStoreWrite) =
      [.storeUpdatePokemon { pokemon with evolution := some ⟨d.evolutionName,
        d.evolutionDescription, d.evolutionStats, img, now⟩ }] ∧
    (handleGenerateEvolution s pokemon (.ok raw) jsonParse (.ok img) now
      (.ok ())).2 =
      [.clientCall .generateEvolutionText, .clientCall .generateEvolutionImage,
       .storeUpdatePokemon { pokemon with evolution := some ⟨d.evolutionName,
         d.evolutionDescription, d.evolutionStats, img, now⟩},
       .notify ⟨.success, "Evolution created for " ++ pokemon.name ++
         "! Meet " ++ d.evolutionName ++ "!"⟩] := by
  simp only [handleGenerateEvolution]
  rw [hparse]
  exact ⟨rfl, rfl, rfl, rfl, rfl, rfl⟩

/-- Witness for C7 with the always-succeeding parse oracle. -/
theorem evolution_success_witness :
    (handleGenerateEvolution (mkState [samplePokemon] 20) samplePokemon
      (.ok "response") sampleParse (.ok "imgX") 5
      (.ok ())).1.tokenBalance = (mkState [samplePokemon] 20).tokenBalance ∧
    ((handleGenerateEvolution (mkState [samplePokemon] 20) samplePokemon
      (.ok "response") sampleParse (.ok "imgX") 5
      (.ok ())).2.filter Event.isStoreWrite) =
      [.storeUpdatePokemon
        { samplePokemon with
          evolution := some ⟨"AlphaX", "desc", "stats", "imgX", 5⟩ }] :=
  ⟨(evolution_success (mkState [samplePokemon] 20) samplePokemon "response"
      sampleParse ⟨"AlphaX", "desc", "stats"⟩ "imgX" 5 rfl).2.2.1,
   (evolution_success (mkState [samplePokemon] 20) samplePokemon "response"
      sampleParse ⟨"AlphaX", "desc", "stats"⟩ "imgX" 5 rfl).2.2.2.2.1⟩

/-- C9: for every collection and every mode, the display-ordering
projection returns a reordering containing exactly the original records
(a permutation — the pure projection never mutates its input), each of the
six modes yields the documented order, and every unknown mode falls back to
the newest-first ordering, the default. -/
theorem sorting_projection (l : List Pokemon) :
    (∀ mode : String, (sortedPokemons mode l).Perm l) ∧
    List.Sorted (fun a b => b.generatedAt ≤ a.generatedAt)
      (sortedPokemons "date-desc" l) ∧
    List.Sorted (fun a b => a.generatedAt ≤ b.generatedAt)
      (sortedPokemons "date-asc" l) ∧
    List.Sorted (fun a b => rarityOrderMap b.rarity ≤ rarityOrderMap a.rarity)
      (sortedPokemons "rarity-desc" l) ∧
    List.Sorted (fun a b => rarityOrderMap a.rarity ≤ rarityOrderMap b.rarity)
      (sortedPokemons "rarity-asc" l) ∧
    List.Sorted (fun a b => a.name ≤ b.name) (sortedPokemons "name-asc" l) ∧
    List.Sorted (fun a b => b.name ≤ a.name) (sortedPokemons "name-desc" l) ∧
    sortedPokemons "date-desc" l =
      l.mergeSort (fun a b => decide (b.generatedAt ≤ a.generatedAt)) ∧
    (∀ mode : String,
      mode ∉ (["rarity-desc", "rarity-asc", "name-asc", "name-desc",
        "date-asc"] : List String) →
      sortedPokemons mode l =
        l.mergeSort (fun a b => decide (b.generatedAt ≤ a.generatedAt))) := by
  refine ⟨?_, ?_, ?_, ?_, ?_, ?_, ?_, rfl, ?_⟩
  · intro mode
    unfold sortedPokemons
    split <;> exact List.mergeSort_perm l _
  · exact sorted_mergeSort_of_rel (fun a b => b.generatedAt ≤ a.generatedAt)
      (fun a b c h1 h2 => le_trans h2 h1)
      (fun a b => le_total b.generatedAt a.generatedAt) l
  · exact sorted_mergeSort_of_rel (fun a b => a.generatedAt ≤ b.generatedAt)
      (fun a b c h1 h2 => le_trans h1 h2)
      (fun a b => le_total a.generatedAt b.generatedAt) l
  · refine sorted_mergeSort_of_rel
      (fun a b => rarityOrderMap b.rarity ≤ rarityOrderMap a.rarity) ?_ ?_ l
    · intro a b c h1 h2
      exact le_trans h2 h1
    · intro a b
      exact le_total _ _
  · refine sorted_mergeSort_of_rel
      (fun a b => rarityOrderMap a.rarity ≤ rarityOrderMap b.rarity) ?_ ?_ l
    · intro a b c h1 h2
      exact le_trans h1 h2
    · intro a b
      exact le_total _ _
  · exact sorted_mergeSort_of_rel (fun a b => a.name ≤ b.name)
      (fun a b c h1 h2 => le_trans h1 h2)
      (fun a b => le_total a.name b.name) l
  · exact sorted_mergeSort_of_rel (fun a b => b.name ≤ a.name)
      (fun a b c h1 h2 => le_trans h2 h1)
      (fun a b => le_total b.name a.name) l
  · intro mode h
    simp only [List.mem_cons, List.not_mem_nil, or_false, not_or] at h
    unfold sortedPokemons
    split <;> simp_all

/-- Witness for C9's fallback clause at the unmapped mode "mystery". -/
theorem sorting_projection_witness :
    sortedPokemons "mystery" ([] : List Pokemon) =
      ([] : List Pokemon).mergeSort
        (fun a b => decide (b.generatedAt ≤ a.generatedAt)) :=
  (sorting_projection []).2.2.2.2.2.2.2.2 "mystery" (by decide)

end PokemonApp
